import Mathlib

set_option maxRecDepth 4000

/-!
Verification development for the termcolor crate: a shallow embedding of its
color/style data model, ANSI escape-sequence encoders, capability policy and
writer variants, together with theorems checking the specification against
the code.

Conventions of the embedding:
* Rust `u8` is modelled as `Fin 256`.
* Rust `&str` / `String` are modelled as Lean `String`; the string helpers
  the code uses (`split(',')`, `trim`, `to_lowercase`, numeric parsing) are
  re-implemented structurally over `String.data` so that the kernel can
  evaluate them.
* Byte sequences written into a sink are modelled as the `String` of bytes
  appended (all emitted bytes are ASCII).
* Fallible operations return `Except`.
-/

/-- The set of available colors (src/types.rs, `enum Color`). -/
inductive Color : Type
  | black
  | blue
  | green
  | red
  | cyan
  | magenta
  | yellow
  | white
  | ansi256 (n : Fin 256)
  | rgb (r g b : Fin 256)
deriving DecidableEq

/-- A color specification (src/types.rs, `struct ColorSpec`). -/
structure ColorSpec where
  fg_color : Option Color
  bg_color : Option Color
  bold : Bool
  intense : Bool
  underline : Bool
  dimmed : Bool
  italic : Bool
  reset : Bool
  strikethrough : Bool
deriving DecidableEq

/-- The `Default` impl for `ColorSpec` (src/types.rs): no colors, all style
flags off, `reset` on. -/
def ColorSpec.default : ColorSpec where
  fg_color := none
  bg_color := none
  bold := false
  intense := false
  underline := false
  dimmed := false
  italic := false
  reset := true
  strikethrough := false

/-- `ColorSpec::new` (src/types.rs). -/
def ColorSpec.new : ColorSpec := ColorSpec.default

/-- `ColorSpec::is_none` (src/types.rs): no colors and no style flags set.
The `reset` flag is not consulted. -/
def ColorSpec.is_none (s : ColorSpec) : Bool :=
  s.fg_color.isNone && s.bg_color.isNone && !s.bold && !s.underline
    && !s.dimmed && !s.italic && !s.intense && !s.strikethrough

/-- `ColorSpec::clear` (src/types.rs): drops both colors and all six style
flags; the `reset` field is not touched. -/
def ColorSpec.clear (s : ColorSpec) : ColorSpec :=
  { s with
    fg_color := none
    bg_color := none
    bold := false
    underline := false
    intense := false
    dimmed := false
    italic := false
    strikethrough := false }

/-- A hyperlink specification (src/types.rs, `struct HyperlinkSpec`); the URI
is a borrowed byte slice, modelled as a list of bytes. -/
structure HyperlinkSpec where
  uri : Option (List Nat)

/-- An opaque stand-in for `std::io::Error`. -/
structure IoError where
  message : String
deriving DecidableEq

instance {ε α : Type} [DecidableEq ε] [DecidableEq α] :
    DecidableEq (Except ε α) := fun x y =>
  match x, y with
  | .ok a, .ok b =>
    if h : a = b then .isTrue (by rw [h]) else .isFalse (by simp [h])
  | .error a, .error b =>
    if h : a = b then .isTrue (by rw [h]) else .isFalse (by simp [h])
  | .ok _, .error _ => .isFalse (by simp)
  | .error _, .ok _ => .isFalse (by simp)

/-! ## The ANSI escape-sequence encoders -/

/-- The decimal digits of a `u8` code as emitted by the digit loop of the
`write_var_ansi_code!` macro in src/writers.rs: hundreds digit only when
nonzero, tens digit when it or the hundreds digit was printed, units digit
always. -/
def u8DecimalDigits (code : Nat) : String :=
  let c1 := code / 100 % 10
  let c2 := code / 10 % 10
  let c3 := code % 10
  String.mk
    ((if c1 ≠ 0 then [Nat.digitChar c1] else []) ++
     (if c2 ≠ 0 ∨ c1 ≠ 0 then [Nat.digitChar c2] else []) ++
     [Nat.digitChar c3])

/-- The code section written by `write_var_ansi_code!` (src/writers.rs): the
loop appends each code's digits followed by a `;` and the final `;` slot is
overwritten by the terminating `m`, so the codes end up `;`-separated. -/
def joinCodes : List Nat → String
  | [] => ""
  | [c] => u8DecimalDigits c
  | c :: rest => u8DecimalDigits c ++ ";" ++ joinCodes rest

/-- `write_var_ansi_code!` (src/writers.rs): a fixed byte prefix, the
`;`-separated decimal codes, and a closing `m`. -/
def write_var_ansi_code (pre : String) (codes : List Nat) : String :=
  pre ++ joinCodes codes ++ "m"

/-- Bytes written by `Ansi::write_color` (src/writers.rs). `fg` selects the
foreground (`38`/`3x`) versus background (`48`/`4x`) families; intense named
colors use the 256-color bright palette entries. -/
def Ansi.write_color (fg : Bool) (c : Color) (intense : Bool) : String :=
  let write_intense := fun (clr : String) =>
    if fg then "\x1B[38;5;" ++ clr ++ "m" else "\x1B[48;5;" ++ clr ++ "m"
  let write_normal := fun (clr : String) =>
    if fg then "\x1B[3" ++ clr ++ "m" else "\x1B[4" ++ clr ++ "m"
  let write_custom1 := fun (n : Fin 256) =>
    if fg then write_var_ansi_code "\x1B[38;5;" [n.val]
    else write_var_ansi_code "\x1B[48;5;" [n.val]
  let write_custom3 := fun (r g b : Fin 256) =>
    if fg then write_var_ansi_code "\x1B[38;2;" [r.val, g.val, b.val]
    else write_var_ansi_code "\x1B[48;2;" [r.val, g.val, b.val]
  if intense then
    match c with
    | .black => write_intense "8"
    | .blue => write_intense "12"
    | .green => write_intense "10"
    | .red => write_intense "9"
    | .cyan => write_intense "14"
    | .magenta => write_intense "13"
    | .yellow => write_intense "11"
    | .white => write_intense "15"
    | .ansi256 n => write_custom1 n
    | .rgb r g b => write_custom3 r g b
  else
    match c with
    | .black => write_normal "0"
    | .blue => write_normal "4"
    | .green => write_normal "2"
    | .red => write_normal "1"
    | .cyan => write_normal "6"
    | .magenta => write_normal "5"
    | .yellow => write_normal "3"
    | .white => write_normal "7"
    | .ansi256 n => write_custom1 n
    | .rgb r g b => write_custom3 r g b

/-- Bytes written by `Ansi::reset` (src/writers.rs). -/
def Ansi.reset_bytes : String := "\x1B[0m"

/-- Bytes written into the sink by `Ansi::set_color` (src/writers.rs): reset
first when requested, then the style flags in a fixed order, then the
foreground and background colors, each rendered with the spec's `intense`
flag. -/
def Ansi.set_color (spec : ColorSpec) : String :=
  (if spec.reset then Ansi.reset_bytes else "") ++
  (if spec.bold then "\x1B[1m" else "") ++
  (if spec.dimmed then "\x1B[2m" else "") ++
  (if spec.italic then "\x1B[3m" else "") ++
  (if spec.underline then "\x1B[4m" else "") ++
  (if spec.strikethrough then "\x1B[9m" else "") ++
  (match spec.fg_color with
   | some c => Ansi.write_color true c spec.intense
   | none => "") ++
  (match spec.bg_color with
   | some c => Ansi.write_color false c spec.intense
   | none => "")

/-- Bytes written by `Ansi::set_hyperlink` (src/writers.rs): OSC-8 open with
the URI bytes (shown here as the byte list) between the delimiters. -/
def Ansi.set_hyperlink (link : HyperlinkSpec) : List Nat :=
  "\x1B]8;;".data.map Char.toNat ++
  (match link.uri with
   | some uri => uri
   | none => []) ++
  "\x1B\\".data.map Char.toNat

/-- `ansi_color` (src/ansi.rs): the escape sequence for a single color, where
`bg` selects background; numbers are formatted by the standard decimal
`Display` formatting, i.e. `Nat.repr`. -/
def ansi_color (c : Color) (bg : Bool) : String :=
  match c with
  | .black => if bg then "\x1B[40m" else "\x1B[30m"
  | .blue => if bg then "\x1B[44m" else "\x1B[34m"
  | .green => if bg then "\x1B[42m" else "\x1B[32m"
  | .red => if bg then "\x1B[41m" else "\x1B[31m"
  | .cyan => if bg then "\x1B[46m" else "\x1B[36m"
  | .magenta => if bg then "\x1B[45m" else "\x1B[35m"
  | .yellow => if bg then "\x1B[43m" else "\x1B[33m"
  | .white => if bg then "\x1B[47m" else "\x1B[37m"
  | .ansi256 n =>
    if bg then "\x1B[48;5;" ++ Nat.repr n.val ++ "m"
    else "\x1B[38;5;" ++ Nat.repr n.val ++ "m"
  | .rgb r g b =>
    if bg then
      "\x1B[48;2;" ++ Nat.repr r.val ++ ";" ++ Nat.repr g.val ++ ";" ++
        Nat.repr b.val ++ "m"
    else
      "\x1B[38;2;" ++ Nat.repr r.val ++ ";" ++ Nat.repr g.val ++ ";" ++
        Nat.repr b.val ++ "m"

/-- `ansi_spec` (src/ansi.rs): reset first when requested, the style flags in
a fixed order, the foreground and background via `ansi_color`, and finally an
extra bold code when `intense` is set together with a foreground color. -/
def ansi_spec (spec : ColorSpec) : String :=
  (if spec.reset then "\x1B[0m" else "") ++
  (if spec.bold then "\x1B[1m" else "") ++
  (if spec.dimmed then "\x1B[2m" else "") ++
  (if spec.italic then "\x1B[3m" else "") ++
  (if spec.underline then "\x1B[4m" else "") ++
  (if spec.strikethrough then "\x1B[9m" else "") ++
  (match spec.fg_color with
   | some c => ansi_color c false
   | none => "") ++
  (match spec.bg_color with
   | some c => ansi_color c true
   | none => "") ++
  (if spec.intense && spec.fg_color.isSome then "\x1B[1m" else "")

/-! ## Capability policy (src/types.rs) -/

/-- `ColorChoice` (src/types.rs). -/
inductive ColorChoice : Type
  | always
  | alwaysAnsi
  | auto
  | never
deriving DecidableEq

/-- The environment variables the capability policy consults. A variable
that is unset (or, for `env::var`, not valid unicode) is `none`. -/
structure Env where
  term : Option String
  no_color : Option String
deriving DecidableEq

/-- `ColorChoice::env_allows_color`, non-Windows variant (src/types.rs):
colors are refused when `TERM` is unset or `"dumb"`, and otherwise refused
exactly when `NO_COLOR` is set. -/
def ColorChoice.env_allows_color_unix (env : Env) : Bool :=
  match env.term with
  | none => false
  | some k =>
    if k = "dumb" then false
    else if env.no_color.isSome then false
    else true

/-- `ColorChoice::env_allows_color`, Windows variant (src/types.rs): an unset
`TERM` does not refuse colors; `TERM = "dumb"` or a set `NO_COLOR` does. -/
def ColorChoice.env_allows_color_windows (env : Env) : Bool :=
  match env.term with
  | some k =>
    if k = "dumb" then false
    else if env.no_color.isSome then false
    else true
  | none =>
    if env.no_color.isSome then false
    else true

/-- `ColorChoice::should_attempt_color` on non-Windows platforms
(src/types.rs). -/
def ColorChoice.should_attempt_color_unix (c : ColorChoice) (env : Env) :
    Bool :=
  match c with
  | .always => true
  | .alwaysAnsi => true
  | .never => false
  | .auto => ColorChoice.env_allows_color_unix env

/-- `ColorChoice::should_attempt_color` on Windows (src/types.rs). -/
def ColorChoice.should_attempt_color_windows (c : ColorChoice) (env : Env) :
    Bool :=
  match c with
  | .always => true
  | .alwaysAnsi => true
  | .never => false
  | .auto => ColorChoice.env_allows_color_windows env

/-- `ColorChoice::should_force_ansi` (src/types.rs, Windows only): `Auto`
forces ANSI exactly when `TERM` is readable and neither `"dumb"` nor
`"cygwin"`. -/
def ColorChoice.should_force_ansi (c : ColorChoice) (env : Env) : Bool :=
  match c with
  | .always => false
  | .alwaysAnsi => true
  | .never => false
  | .auto =>
    match env.term with
    | some term => if term ≠ "dumb" ∧ term ≠ "cygwin" then true else false
    | none => false

/-! ## String helpers used by the parsers

The Rust code uses `str::split(',')`, `str::trim`, `str::to_lowercase`,
`u8::from_str` and `u8::from_str_radix(_, 16)`. Each is re-implemented here
structurally; the case conversion and whitespace predicates are restricted to
ASCII, which covers every string the parser compares against. -/

/-- `str::split(',')` on the character list: the separators themselves are
dropped and empty fields are kept. -/
def splitCommaChars : List Char → List (List Char)
  | [] => [[]]
  | ',' :: rest => [] :: splitCommaChars rest
  | c :: rest =>
    match splitCommaChars rest with
    | [] => [[c]]
    | g :: gs => (c :: g) :: gs

/-- `str::split(',')` collected into a list of strings. -/
def splitComma (s : String) : List String :=
  (splitCommaChars s.data).map String.mk

/-- ASCII lowercase conversion of one character. -/
def asciiLowerChar (c : Char) : Char :=
  if 'A' ≤ c ∧ c ≤ 'Z' then Char.ofNat (c.toNat + 32) else c

/-- `str::to_lowercase` (ASCII fragment). -/
def strToLower (s : String) : String :=
  String.mk (s.data.map asciiLowerChar)

/-- `str::trim`: whitespace stripped from both ends. -/
def strTrim (s : String) : String :=
  String.mk
    (((s.data.dropWhile Char.isWhitespace).reverse.dropWhile
        Char.isWhitespace).reverse)

/-- The numeric value of an ASCII decimal digit. -/
def decDigitValue (c : Char) : Option Nat :=
  if '0' ≤ c ∧ c ≤ '9' then some (c.toNat - '0'.toNat) else none

/-- The numeric value of an ASCII hexadecimal digit. -/
def hexDigitValue (c : Char) : Option Nat :=
  if '0' ≤ c ∧ c ≤ '9' then some (c.toNat - '0'.toNat)
  else if 'a' ≤ c ∧ c ≤ 'f' then some (c.toNat - 'a'.toNat + 10)
  else if 'A' ≤ c ∧ c ≤ 'F' then some (c.toNat - 'A'.toNat + 10)
  else none

/-- `u8::is_ascii_hexdigit`. -/
def isAsciiHexDigitChar (c : Char) : Bool :=
  if ('0' ≤ c ∧ c ≤ '9') ∨ ('a' ≤ c ∧ c ≤ 'f') ∨ ('A' ≤ c ∧ c ≤ 'F')
  then true else false

/-- Accumulate the digits of a number; `none` on the first character that is
not a digit of the base. -/
def digitsValue (dv : Char → Option Nat) (base : Nat) :
    List Char → Nat → Option Nat
  | [], acc => some acc
  | c :: rest, acc =>
    match dv c with
    | some d => digitsValue dv base rest (acc * base + d)
    | none => none

/-- Rust's integer `FromStr`/`from_str_radix` for `u8`: an optional single
leading `+` sign (a `-` sign is rejected outright for unsigned types), at
least one digit, and no overflow past 255. -/
def rustParseU8 (dv : Char → Option Nat) (base : Nat) (cs : List Char) :
    Option (Fin 256) :=
  match cs with
  | [] => none
  | c :: rest =>
    let digits : List Char := if c = '+' then rest else c :: rest
    match digits with
    | [] => none
    | _ =>
      match digitsValue dv base digits 0 with
      | none => none
      | some v =>
        if h : v < 256 then some ⟨v, h⟩
        else none

/-- `parse_number` inside `Color::from_str_numeric` (src/types.rs): strings
with a `0x` prefix parse as hexadecimal `u8`, everything else as decimal
`u8`. -/
def parse_number (s : String) : Option (Fin 256) :=
  match s.data with
  | '0' :: 'x' :: rest => rustParseU8 hexDigitValue 16 rest
  | _ => rustParseU8 decDigitValue 10 s.data

/-! ## Color and ColorSpec parsing (src/types.rs) -/

/-- Classification of a color parse failure (src/types.rs,
`ParseColorErrorKind`). -/
inductive ParseColorErrorKind : Type
  | invalidName
  | invalidAnsi256
  | invalidRgb
deriving DecidableEq

/-- `ParseColorError` (src/types.rs): the classification plus the original
offending input string. -/
structure ParseColorError where
  kind : ParseColorErrorKind
  given : String
deriving DecidableEq

/-- `Color::from_str_numeric` (src/types.rs): one field parses as a palette
index (with a hex-looking fallback classification), three fields parse as an
RGB triple, and any other field count is an error. -/
def Color.from_str_numeric (s : String) : Except ParseColorError Color :=
  match splitComma s with
  | [code] =>
    match parse_number code with
    | some n => .ok (.ansi256 n)
    | none =>
      if s.data.all isAsciiHexDigitChar then
        .error ⟨.invalidAnsi256, s⟩
      else
        .error ⟨.invalidName, s⟩
  | [c1, c2, c3] =>
    match parse_number c1 with
    | none => .error ⟨.invalidRgb, s⟩
    | some r =>
      match parse_number c2 with
      | none => .error ⟨.invalidRgb, s⟩
      | some g =>
        match parse_number c3 with
        | none => .error ⟨.invalidRgb, s⟩
        | some b => .ok (.rgb r g b)
  | _ =>
    if s.data.contains ',' then .error ⟨.invalidRgb, s⟩
    else .error ⟨.invalidName, s⟩

/-- The `FromStr` impl for `Color` (src/types.rs): case-insensitive match of
the eight color names, otherwise numeric parsing of the original string. -/
def Color.from_str (s : String) : Except ParseColorError Color :=
  match strToLower s with
  | "black" => .ok .black
  | "blue" => .ok .blue
  | "green" => .ok .green
  | "red" => .ok .red
  | "cyan" => .ok .cyan
  | "magenta" => .ok .magenta
  | "yellow" => .ok .yellow
  | "white" => .ok .white
  | _ => Color.from_str_numeric s

/-- `ColorSpecParseError` (src/types.rs). -/
inductive ColorSpecParseError : Type
  | invalidColor (e : ParseColorError)
deriving DecidableEq

/-- The loop body of the `FromStr` impl for `ColorSpec` (src/types.rs),
processing the comma-separated parts in order against the accumulated
spec. -/
def ColorSpec.from_str_parts :
    List String → ColorSpec → Except ColorSpecParseError ColorSpec
  | [], cs => .ok cs
  | p :: rest, cs =>
    let part := strTrim p
    if part = "" then ColorSpec.from_str_parts rest cs
    else
      match part.data with
      | 'f' :: 'g' :: ':' :: color_str =>
        match Color.from_str (String.mk color_str) with
        | .error e => .error (.invalidColor e)
        | .ok c => ColorSpec.from_str_parts rest { cs with fg_color := some c }
      | 'b' :: 'g' :: ':' :: color_str =>
        match Color.from_str (String.mk color_str) with
        | .error e => .error (.invalidColor e)
        | .ok c => ColorSpec.from_str_parts rest { cs with bg_color := some c }
      | _ =>
        if part = "bold" then
          ColorSpec.from_str_parts rest { cs with bold := true }
        else if part = "dimmed" then
          ColorSpec.from_str_parts rest { cs with dimmed := true }
        else if part = "underline" then
          ColorSpec.from_str_parts rest { cs with underline := true }
        else if part = "italic" then
          ColorSpec.from_str_parts rest { cs with italic := true }
        else if part = "intense" then
          ColorSpec.from_str_parts rest { cs with intense := true }
        else if part = "strikethrough" then
          ColorSpec.from_str_parts rest { cs with strikethrough := true }
        else if part = "reset" then
          ColorSpec.from_str_parts rest { cs with reset := true }
        else if part = "noreset" then
          ColorSpec.from_str_parts rest { cs with reset := false }
        else
          match Color.from_str part with
          | .error e => .error (.invalidColor e)
          | .ok c =>
            ColorSpec.from_str_parts rest { cs with fg_color := some c }

/-- The `FromStr` impl for `ColorSpec` (src/types.rs): split on commas and
fold the parts into a fresh spec. -/
def ColorSpec.from_str (spec : String) : Except ColorSpecParseError ColorSpec :=
  ColorSpec.from_str_parts (splitComma spec) ColorSpec.new

/-! ## The no-color writer variant (src/writers.rs) -/

/-- `NoColor<W>` (src/writers.rs): a writer wrapper that drops all color
information. -/
structure NoColor (W : Type) where
  inner : W

/-- `NoColor::supports_color` (src/writers.rs). -/
def NoColor.supports_color {W : Type} (_ : NoColor W) : Bool := false

/-- `NoColor::supports_hyperlinks` (src/writers.rs). -/
def NoColor.supports_hyperlinks {W : Type} (_ : NoColor W) : Bool := false

/-- `NoColor::set_color` (src/writers.rs): returns `Ok(())` without touching
the inner writer. -/
def NoColor.set_color {W : Type} (w : NoColor W) (_ : ColorSpec) :
    Except IoError (NoColor W) := .ok w

/-- `NoColor::set_hyperlink` (src/writers.rs): returns `Ok(())` without
touching the inner writer. -/
def NoColor.set_hyperlink {W : Type} (w : NoColor W) (_ : HyperlinkSpec) :
    Except IoError (NoColor W) := .ok w

/-- `NoColor::reset` (src/writers.rs): returns `Ok(())` without touching the
inner writer. -/
def NoColor.reset {W : Type} (w : NoColor W) : Except IoError (NoColor W) :=
  .ok w

/-- One styling operation of the `WriteColor` contract. -/
inductive StyleOp : Type
  | setColor (spec : ColorSpec)
  | setHyperlink (link : HyperlinkSpec)
  | reset

/-- Dispatch one styling operation on a `NoColor` writer. -/
def NoColor.applyOp {W : Type} (w : NoColor W) (op : StyleOp) :
    Except IoError (NoColor W) :=
  match op with
  | .setColor spec => w.set_color spec
  | .setHyperlink link => w.set_hyperlink link
  | .reset => w.reset

/-- Run a finite sequence of styling operations on a `NoColor` writer,
stopping at the first error. -/
def NoColor.runOps {W : Type} (w : NoColor W) :
    List StyleOp → Except IoError (NoColor W)
  | [] => .ok w
  | op :: ops =>
    match NoColor.applyOp w op with
    | .error e => .error e
    | .ok w2 => NoColor.runOps w2 ops

/-! ## Buffers and the buffer writer (src/writers.rs) -/

/-- `Ansi<W>` (src/writers.rs): a writer wrapper that emits ANSI escapes. -/
structure AnsiWriter (W : Type) where
  inner : W

/-- `BufferInner` (src/writers.rs): the two in-memory buffer variants, each
wrapping a byte vector. -/
inductive BufferInner : Type
  | noColor (b : NoColor (List Nat))
  | ansi (b : AnsiWriter (List Nat))

/-- `Buffer` (src/writers.rs). -/
structure Buffer where
  inner : BufferInner

/-- `Buffer::no_color` (src/writers.rs): an empty pass-through buffer. -/
def Buffer.no_color : Buffer := ⟨.noColor ⟨[]⟩⟩

/-- `Buffer::ansi` (src/writers.rs): an empty ANSI-encoded buffer. -/
def Buffer.ansi : Buffer := ⟨.ansi ⟨[]⟩⟩

/-- `Buffer::len` (src/writers.rs). -/
def Buffer.len (b : Buffer) : Nat :=
  match b.inner with
  | .noColor w => w.inner.length
  | .ansi w => w.inner.length

/-- `Buffer::is_empty` (src/writers.rs). -/
def Buffer.is_empty (b : Buffer) : Bool := b.len == 0

/-- `Buffer::as_slice` (src/writers.rs). -/
def Buffer.as_slice (b : Buffer) : List Nat :=
  match b.inner with
  | .noColor w => w.inner
  | .ansi w => w.inner

/-- `BufferWriter` (src/writers.rs): the destination stream is modelled by
the trace of bytes written to it (`out`), together with the
"previously printed" flag and the optional separator. -/
structure BufferWriter where
  printed : Bool
  separator : Option (List Nat)
  out : List Nat

/-- `BufferWriter::print` (src/writers.rs): an empty buffer returns `Ok`
immediately with no device interaction; otherwise the separator (followed by
a newline) is written when one is configured and something was printed
before, the buffer's bytes are written, and the printed flag is set. -/
def BufferWriter.print (w : BufferWriter) (buf : Buffer) :
    BufferWriter × Except IoError Unit :=
  if buf.is_empty then
    (w, .ok ())
  else
    let afterSep : List Nat :=
      match w.separator with
      | some sep => if w.printed then w.out ++ sep ++ [10] else w.out
      | none => w.out
    ({ w with out := afterSep ++ buf.as_slice, printed := true }, .ok ())

/-! ## Helper lemmas -/

/-- The digit loop of the writers module prints exactly the standard decimal
representation for every byte value. -/
theorem u8DecimalDigits_eq_repr :
    ∀ n : Fin 256, u8DecimalDigits n.val = Nat.repr n.val := by decide

/-- On non-intense colors, the writers-module color encoder and the
ansi-module color encoder emit the same bytes (foreground of one is the
non-background of the other). -/
theorem write_color_nonintense_eq_ansi_color (fg : Bool) (c : Color) :
    Ansi.write_color fg c false = ansi_color c (!fg) := by
  cases fg <;> cases c <;>
    first
      | rfl
      | simp [Ansi.write_color, ansi_color, write_var_ansi_code, joinCodes,
          u8DecimalDigits_eq_repr, String.append_assoc]

/-- The color specification with foreground green, `intense` on and `reset`
off; the concrete scenario of the specification's §8. -/
def greenIntenseSpec : ColorSpec where
  fg_color := some .green
  bg_color := none
  bold := false
  intense := true
  underline := false
  dimmed := false
  italic := false
  reset := false
  strikethrough := false

/-- A sample specification with foreground red, bold and `reset` on. -/
def redBoldSpec : ColorSpec where
  fg_color := some .red
  bg_color := none
  bold := true
  intense := false
  underline := false
  dimmed := false
  italic := false
  reset := true
  strikethrough := false

/-! ## Claim theorems -/

/-- Claim C1, counterexample: the bytes written by the ANSI writer's
`set_color` differ from the output of the escape-sequence encoder
`ansi_spec` on the spec with foreground green, `intense` on and `reset`
off (the writer emits the bright palette code, the encoder the base green
code followed by a bold code). -/
theorem C1_counterexample :
    Ansi.set_color greenIntenseSpec ≠ ansi_spec greenIntenseSpec := by decide

/-- Claim C1, amended: whenever the spec's `intense` flag is off, the byte
sequence written by the ANSI writer's `set_color` is exactly the byte
sequence produced by the escape-sequence encoder `ansi_spec` on the same
`ColorSpec`; with `intense` on and a color present the two encoders
disagree. -/
theorem C1_set_color_eq_ansi_spec_of_not_intense (spec : ColorSpec)
    (h : spec.intense = false) : Ansi.set_color spec = ansi_spec spec := by
  obtain ⟨fg, bg, bold, intense, underline, dimmed, italic, rst, strike⟩ :=
    spec
  simp only at h
  subst h
  cases fg <;> cases bg <;>
    simp [Ansi.set_color, ansi_spec, Ansi.reset_bytes,
      write_color_nonintense_eq_ansi_color, String.append_empty,
      String.append_assoc]

/-- Claim C1, witness: the amended equivalence evaluated on the concrete
red-bold spec. -/
theorem C1_witness :
    redBoldSpec.intense = false ∧
    Ansi.set_color redBoldSpec = ansi_spec redBoldSpec :=
  ⟨rfl, C1_set_color_eq_ansi_spec_of_not_intense redBoldSpec rfl⟩

/-- Claim C2, counterexample: neither encoder produces the claimed byte
sequence (bright-green 256-color code followed by a bold code) on the spec
with foreground green, `intense` on and `reset` off. -/
theorem C2_counterexample :
    Ansi.set_color greenIntenseSpec ≠ "\x1B[38;5;10m\x1B[1m" ∧
    ansi_spec greenIntenseSpec ≠ "\x1B[38;5;10m\x1B[1m" :=
  ⟨by decide, by decide⟩

/-- Claim C2, amended: on the spec with foreground green, `intense` on and
`reset` off, the ANSI writer's `set_color` writes exactly the bright-green
256-color code with no bold code, while the escape-sequence encoder
`ansi_spec` writes the base green code followed by a bold code. -/
theorem C2_green_intense_bytes :
    Ansi.set_color greenIntenseSpec = "\x1B[38;5;10m" ∧
    ansi_spec greenIntenseSpec = "\x1B[32m\x1B[1m" :=
  ⟨by decide, by decide⟩

/-- Claim C3: `Always` and `AlwaysAnsi` attempt color on both platform
variants regardless of the environment; `Never` never does; with `Auto`, a
set `NO_COLOR` forces false on both variants, and on the strict (non-Windows)
variant color is attempted exactly when `TERM` is set to something other
than "dumb" and `NO_COLOR` is unset. -/
theorem C3_should_attempt_color (env : Env) :
    ColorChoice.should_attempt_color_unix .always env = true ∧
    ColorChoice.should_attempt_color_windows .always env = true ∧
    ColorChoice.should_attempt_color_unix .alwaysAnsi env = true ∧
    ColorChoice.should_attempt_color_windows .alwaysAnsi env = true ∧
    ColorChoice.should_attempt_color_unix .never env = false ∧
    ColorChoice.should_attempt_color_windows .never env = false ∧
    (env.no_color.isSome = true →
      ColorChoice.should_attempt_color_unix .auto env = false ∧
      ColorChoice.should_attempt_color_windows .auto env = false) ∧
    (ColorChoice.should_attempt_color_unix .auto env = true ↔
      env.no_color = none ∧ ∃ t, env.term = some t ∧ t ≠ "dumb") := by
  obtain ⟨term, nc⟩ := env
  refine ⟨rfl, rfl, rfl, rfl, rfl, rfl, ?_, ?_⟩
  · intro h
    cases term with
    | none =>
      refine ⟨rfl, ?_⟩
      simp [ColorChoice.should_attempt_color_windows,
        ColorChoice.env_allows_color_windows, h]
    | some t =>
      constructor <;>
        simp [ColorChoice.should_attempt_color_unix,
          ColorChoice.should_attempt_color_windows,
          ColorChoice.env_allows_color_unix,
          ColorChoice.env_allows_color_windows, h]
  · cases term with
    | none =>
      simp [ColorChoice.should_attempt_color_unix,
        ColorChoice.env_allows_color_unix]
    | some t =>
      by_cases hd : t = "dumb" <;>
        cases nc <;>
          simp [ColorChoice.should_attempt_color_unix,
            ColorChoice.env_allows_color_unix, hd]

/-- Claim C4: on the legacy-console platform, `AlwaysAnsi` forces ANSI,
`Always` and `Never` do not, and `Auto` forces ANSI exactly when the `TERM`
variable is present and neither "dumb" nor "cygwin". -/
theorem C4_should_force_ansi (env : Env) :
    ColorChoice.should_force_ansi .alwaysAnsi env = true ∧
    ColorChoice.should_force_ansi .always env = false ∧
    ColorChoice.should_force_ansi .never env = false ∧
    (ColorChoice.should_force_ansi .auto env = true ↔
      ∃ t, env.term = some t ∧ t ≠ "dumb" ∧ t ≠ "cygwin") := by
  obtain ⟨term, nc⟩ := env
  refine ⟨rfl, rfl, rfl, ?_⟩
  cases term with
  | none => simp [ColorChoice.should_force_ansi]
  | some t =>
    by_cases hd : t = "dumb" <;> by_cases hc : t = "cygwin" <;>
      simp [ColorChoice.should_force_ansi, hd, hc]

/-- Claim C5: for every byte value, the ANSI writer emits the 256-color
foreground form as the fixed prefix, the plain decimal representation of the
index (no leading zeros, a single "0" digit for zero, never empty) and a
final "m"; the background form uses the "48" prefix, and each RGB component
is formatted the same way. -/
theorem C5_numeric_formatting :
    (∀ (n : Fin 256) (intense : Bool),
      Ansi.write_color true (.ansi256 n) intense =
        "\x1B[38;5;" ++ Nat.repr n.val ++ "m" ∧
      Ansi.write_color false (.ansi256 n) intense =
        "\x1B[48;5;" ++ Nat.repr n.val ++ "m") ∧
    (∀ (r g b : Fin 256) (intense : Bool),
      Ansi.write_color true (.rgb r g b) intense =
        "\x1B[38;2;" ++ Nat.repr r.val ++ ";" ++ Nat.repr g.val ++ ";" ++
          Nat.repr b.val ++ "m" ∧
      Ansi.write_color false (.rgb r g b) intense =
        "\x1B[48;2;" ++ Nat.repr r.val ++ ";" ++ Nat.repr g.val ++ ";" ++
          Nat.repr b.val ++ "m") ∧
    (∀ n : Fin 256, u8DecimalDigits n.val = Nat.repr n.val) ∧
    u8DecimalDigits 0 = "0" := by
  refine ⟨?_, ?_, u8DecimalDigits_eq_repr, rfl⟩
  · intro n intense
    cases intense <;>
      exact ⟨by simp [Ansi.write_color, write_var_ansi_code, joinCodes,
          u8DecimalDigits_eq_repr],
        by simp [Ansi.write_color, write_var_ansi_code, joinCodes,
          u8DecimalDigits_eq_repr]⟩
  · intro r g b intense
    cases intense <;>
      exact ⟨by simp [Ansi.write_color, write_var_ansi_code, joinCodes,
          u8DecimalDigits_eq_repr, String.append_assoc],
        by simp [Ansi.write_color, write_var_ansi_code, joinCodes,
          u8DecimalDigits_eq_repr, String.append_assoc]⟩

/-- Claim C6: parsing the color string "300" fails with the
invalid-palette-index classification, parsing "1,2" fails with the
invalid-rgb-triple classification, and both errors carry the original
offending input string. -/
theorem C6_parse_errors :
    Color.from_str "300" =
      .error ⟨.invalidAnsi256, "300"⟩ ∧
    Color.from_str "1,2" = .error ⟨.invalidRgb, "1,2"⟩ :=
  ⟨by decide, by decide⟩

/-- Claim C7: parsing the spec string "fg:blue,bold,bg:0x0A" succeeds with
foreground blue, bold set and background palette index 10, all other fields
at their defaults (`reset` stays true). -/
theorem C7_parse_spec :
    ColorSpec.from_str "fg:blue,bold,bg:0x0A" =
      .ok { fg_color := some .blue, bg_color := some (.ansi256 10),
            bold := true, intense := false, underline := false,
            dimmed := false, italic := false, reset := true,
            strikethrough := false } := by decide

/-- Claim C8: for every inner writer, running any finite sequence of
set-color, set-hyperlink and reset operations on the no-color variant
succeeds and leaves the inner writer untouched, and the variant reports that
it does not support color. -/
theorem C8_no_color_noop :
    ∀ (W : Type) (w : NoColor W) (ops : List StyleOp),
      NoColor.runOps w ops = .ok w ∧ NoColor.supports_color w = false := by
  intro W w ops
  refine ⟨?_, rfl⟩
  induction ops with
  | nil => rfl
  | cons op ops ih =>
    cases op <;>
      simpa [NoColor.runOps, NoColor.applyOp, NoColor.set_color,
        NoColor.set_hyperlink, NoColor.reset] using ih

/-- Claim C9: freshly created buffers have length zero, and printing an
empty buffer returns success while writing nothing to the device and leaving
the whole writer state (including the "previously printed" flag)
unchanged. -/
theorem C9_print_empty_buffer :
    Buffer.no_color.len = 0 ∧ Buffer.ansi.len = 0 ∧
    ∀ (w : BufferWriter) (buf : Buffer), buf.is_empty = true →
      BufferWriter.print w buf = (w, .ok ()) := by
  refine ⟨rfl, rfl, ?_⟩
  intro w buf h
  simp [BufferWriter.print, h]

/-- Claim C9, witness: printing the fresh no-color buffer on a concrete
writer. -/
theorem C9_witness :
    Buffer.no_color.is_empty = true ∧
    BufferWriter.print ⟨false, none, []⟩ Buffer.no_color =
      (⟨false, none, []⟩, .ok ()) :=
  ⟨rfl, C9_print_empty_buffer.2.2 ⟨false, none, []⟩ Buffer.no_color rfl⟩

/-- Claim C10: after `clear`, a color specification satisfies `is_none`
(no colors, all six style flags off) while the `reset` flag keeps exactly the
value it had before the call. -/
theorem C10_clear (s : ColorSpec) :
    (ColorSpec.clear s).is_none = true ∧
    (ColorSpec.clear s).reset = s.reset :=
  ⟨rfl, rfl⟩

